import Mathlib

/-!
Shallow embedding of the distributed scraping coordination layer of the
repository (stack-scraper/distributed_queue.py and stack-scraper/monitoring.py).

The Redis store is modelled explicitly:
  - a Redis list is a `List ScrapingTask`, index 0 being the head (the side
    LPUSH inserts at); BRPOPLPUSH pops the tail (the last element);
  - LREM with count 1 removes the first element, scanning from the head,
    whose serialization equals the given payload.  The Python code stores
    tasks as `json.dumps(asdict(task), default=str)`, which is injective on
    the task record (fixed field order, primitive fields), so string
    equality of payloads coincides with equality of `ScrapingTask` records
    and LREM is modelled as removal of the first equal record;
  - a Redis set is a duplicate-free `List String` (SADD inserts only when
    absent, SREM filters the member out);
  - a Redis hash of timestamps is an association list `List (String × Nat)`;
    `datetime.now()` values are modelled as natural numbers counting
    seconds, passed to the operations as an explicit `now` argument, and
    the 5-minute liveness window of `cleanup_dead_workers` is 300 seconds;
  - the statistics hash `scraping_stats` has a fixed field set, carried as
    named numeric fields of the state plus the `start_time` string.
-/

/-- The `ScrapingTask` dataclass of distributed_queue.py.  `created_at` is
carried as the string it is serialized to (`default=str`). -/
structure ScrapingTask where
  task_id : String
  url : String
  start_page : Nat
  end_page : Nat
  worker_id : String
  created_at : String
  status : String
  retries : Nat
  questions_scraped : Nat
deriving DecidableEq, Repr

/-- The Redis keys used by `DistributedTaskQueue`, gathered into one record:
the four task lists, the two dedup sets, the worker records and the
`scraping_stats` hash fields. -/
structure QueueState where
  task_queue : List ScrapingTask
  processing_queue : List ScrapingTask
  completed_queue : List ScrapingTask
  failed_queue : List ScrapingTask
  url_set : List String
  question_ids : List String
  active_workers : List String
  worker_heartbeat : List (String × Nat)
  stats_total_tasks : Nat
  stats_completed_tasks : Nat
  stats_failed_tasks : Nat
  stats_total_questions : Nat
  stats_unique_questions : Nat
  stats_start_time : String
deriving DecidableEq, Repr

/-- A state in which every Redis key is empty, as on a fresh store. -/
def emptyState : QueueState :=
  { task_queue := [], processing_queue := [], completed_queue := [],
    failed_queue := [], url_set := [], question_ids := [],
    active_workers := [], worker_heartbeat := [],
    stats_total_tasks := 0, stats_completed_tasks := 0,
    stats_failed_tasks := 0, stats_total_questions := 0,
    stats_unique_questions := 0, stats_start_time := "" }

/-- `LREM key 1 payload`: remove, scanning from the head, the first element
equal to `v`. -/
def lrem1 (v : ScrapingTask) : List ScrapingTask → List ScrapingTask
  | [] => []
  | x :: xs => if x = v then xs else x :: lrem1 v xs

/-- `SADD`: insert a member into a set unless already present. -/
def saddStr (v : String) (l : List String) : List String :=
  if v ∈ l then l else v :: l

/-- `HSET hash field value` on the heartbeat hash: replace the field's value
or append the field. -/
def hsetHB (w : String) (t : Nat) : List (String × Nat) → List (String × Nat)
  | [] => [(w, t)]
  | p :: rest => if p.1 = w then (w, t) :: rest else p :: hsetHB w t rest

/-- `HDEL hash field` on the heartbeat hash. -/
def hdelHB (w : String) : List (String × Nat) → List (String × Nat)
  | [] => []
  | p :: rest => if p.1 = w then rest else p :: hdelHB w rest

/-- Python `range(start, stop, step)` for a positive step: the ascending
list `start, start+step, ...` of values below `stop`. -/
def pyRange (start stop step : Nat) : List Nat :=
  (List.range ((stop - start + step - 1) / step)).map (fun i => start + i * step)

/-- Zero-padded rendering of a counter, as in the format `task_{n:06d}`. -/
def pad6 (n : Nat) : String :=
  let s := toString n
  String.mk (List.replicate (6 - s.length) '0') ++ s

/-- The ten hard-coded Stack Overflow section URLs of
`initialize_task_distribution`. -/
def so_sections : List String :=
  ["https://stackoverflow.com/questions",
   "https://stackoverflow.com/questions/tagged/python",
   "https://stackoverflow.com/questions/tagged/javascript",
   "https://stackoverflow.com/questions/tagged/java",
   "https://stackoverflow.com/questions/tagged/c%23",
   "https://stackoverflow.com/questions/tagged/html",
   "https://stackoverflow.com/questions/tagged/css",
   "https://stackoverflow.com/questions/tagged/react",
   "https://stackoverflow.com/questions/tagged/node.js",
   "https://stackoverflow.com/questions/tagged/sql"]

/-- Each task covers 50 pages (`pages_per_task` in the source). -/
def pages_per_task : Nat := 50

/-- The tasks created by `initialize_task_distribution(total_pages)`, in
creation order: for each section URL, one task per
`start_page in range(1, pages_per_section, pages_per_task)`, numbered by a
running counter. -/
def initTasks (total_pages : Nat) (now : String) : List ScrapingTask :=
  let pages_per_section := total_pages / so_sections.length
  let pairs := so_sections.flatMap (fun u =>
    (pyRange 1 pages_per_section pages_per_task).map (fun sp => (u, sp)))
  pairs.enum.map (fun p =>
    { task_id := "task_" ++ pad6 p.1,
      url := p.2.1 ++ "?page=" ++ toString p.2.2,
      start_page := p.2.2,
      end_page := min (p.2.2 + pages_per_task - 1) pages_per_section,
      worker_id := "", created_at := now, status := "pending",
      retries := 0, questions_scraped := 0 })

/-- `initialize_task_distribution`: DEL the pending list, LPUSH every
created task (so the final list is the reverse of creation order), and
HSET the whole statistics mapping.  No other key is touched. -/
def initialize_task_distribution (total_pages : Nat) (now : String)
    (s : QueueState) : QueueState :=
  let tasks := initTasks total_pages now
  { s with
    task_queue := tasks.reverse,
    stats_total_tasks := tasks.length,
    stats_completed_tasks := 0,
    stats_failed_tasks := 0,
    stats_total_questions := 0,
    stats_unique_questions := 0,
    stats_start_time := now }

/-- `register_worker_heartbeat`: HSET the worker's timestamp and SADD it to
the active-worker set. -/
def register_worker_heartbeat (worker_id : String) (now : Nat)
    (s : QueueState) : QueueState :=
  { s with worker_heartbeat := hsetHB worker_id now s.worker_heartbeat,
           active_workers := saddStr worker_id s.active_workers }

/-- A coordination-store connectivity failure, as raised by the redis
client.  `connFail` injects it into the first store call of an operation. -/
inductive RedisErr where
  | connError
deriving DecidableEq, Repr

/-- The body of `get_next_task` inside the `try`: BRPOPLPUSH one task from
pending to processing (returning `none` on the empty-queue timeout), set
its worker and status, LREM the original payload from processing and LPUSH
the updated one, and register the worker heartbeat.  A connectivity error
in the store call escapes as `RedisErr.connError`. -/
def get_next_task_body (connFail : Bool) (worker_id : String) (now : Nat)
    (s : QueueState) : Except RedisErr (Option ScrapingTask × QueueState) :=
  if connFail then Except.error RedisErr.connError
  else
    match s.task_queue.getLast? with
    | none => Except.ok (none, s)
    | some td =>
      let t := { td with worker_id := worker_id, status := "running" }
      let s1 := { s with
        task_queue := s.task_queue.dropLast,
        processing_queue := t :: lrem1 td (td :: s.processing_queue) }
      Except.ok (some t, register_worker_heartbeat worker_id now s1)

/-- `get_next_task`: the whole body runs under `try ... except Exception`,
whose handler logs and returns `None`, so every store error is converted
into the normal no-task return value. -/
def get_next_task (connFail : Bool) (worker_id : String) (now : Nat)
    (s : QueueState) : Option ScrapingTask × QueueState :=
  match get_next_task_body connFail worker_id now s with
  | Except.error _ => (none, s)
  | Except.ok r => r

/-- `complete_task`: set status to completed and record the scraped count,
then LREM that updated payload from processing, LPUSH it to completed and
HINCRBY the completed and question counters.  Note the LREM argument is
the serialization of the already-updated task. -/
def complete_task (task : ScrapingTask) (questions_scraped : Nat)
    (s : QueueState) : QueueState :=
  let t := { task with status := "completed",
                       questions_scraped := questions_scraped }
  { s with
    processing_queue := lrem1 t s.processing_queue,
    completed_queue := t :: s.completed_queue,
    stats_completed_tasks := s.stats_completed_tasks + 1,
    stats_total_questions := s.stats_total_questions + questions_scraped }

/-- `fail_task`: bump the retry counter; below `max_retries` reset the task
to pending with no worker and LPUSH it back onto the pending list,
otherwise mark it failed, LPUSH it to the failed list and HINCRBY the
failed counter; finally LREM the (mutated) task's payload from
processing. -/
def fail_task (task : ScrapingTask) (max_retries : Nat)
    (s : QueueState) : QueueState :=
  let t1 := { task with retries := task.retries + 1 }
  if t1.retries < max_retries then
    let t2 := { t1 with status := "pending", worker_id := "" }
    { s with
      task_queue := t2 :: s.task_queue,
      processing_queue := lrem1 t2 s.processing_queue }
  else
    let t3 := { t1 with status := "failed" }
    { s with
      failed_queue := t3 :: s.failed_queue,
      stats_failed_tasks := s.stats_failed_tasks + 1,
      processing_queue := lrem1 t3 s.processing_queue }

/-- `CONFIG.scraping.max_retries`: default 3 (MAX_RETRIES in config.py). -/
def max_retries : Nat := 3

/-- `is_duplicate_question`: SISMEMBER on the question-id set. -/
def is_duplicate_question (question_id : String) (s : QueueState) : Bool :=
  question_id ∈ s.question_ids

/-- `add_question_id`: SADD the id and unconditionally HINCRBY the
`unique_questions` counter. -/
def add_question_id (question_id : String) (s : QueueState) : QueueState :=
  { s with question_ids := saddStr question_id s.question_ids,
           stats_unique_questions := s.stats_unique_questions + 1 }

/-- One iteration of the `_reassign_worker_tasks` loop: an entry owned by
the dead worker gets its owner cleared and status reset to pending, its
original payload is LREMed from processing and the reset payload LPUSHed
onto the pending list; any other entry is skipped. -/
def reassignStep (dead_worker_id : String) (st : QueueState)
    (t : ScrapingTask) : QueueState :=
  if t.worker_id = dead_worker_id then
    { st with
      processing_queue := lrem1 t st.processing_queue,
      task_queue :=
        { t with worker_id := "", status := "pending" } :: st.task_queue }
  else st

/-- `_reassign_worker_tasks`: snapshot the processing list with LRANGE and
run the loop body over each snapshot entry. -/
def reassign_worker_tasks (dead_worker_id : String) (s : QueueState) :
    QueueState :=
  s.processing_queue.foldl (reassignStep dead_worker_id) s

/-- One iteration of the `cleanup_dead_workers` loop: a worker whose
timestamp is strictly before the cutoff has its tasks reassigned and is
HDELed from the heartbeat hash and SREMed from the active-worker set; a
live worker is skipped. -/
def cleanupStep (cutoff : Nat) (st : QueueState) (p : String × Nat) :
    QueueState :=
  if p.2 < cutoff then
    let st1 := reassign_worker_tasks p.1 st
    { st1 with
      worker_heartbeat := hdelHB p.1 st1.worker_heartbeat,
      active_workers := st1.active_workers.filter (fun w => w ≠ p.1) }
  else st

/-- `cleanup_dead_workers`: snapshot the heartbeat hash with HGETALL and
run the loop body over each snapshot entry, with the cutoff five minutes
(300 seconds) before `now`. -/
def cleanup_dead_workers (now : Nat) (s : QueueState) : QueueState :=
  s.worker_heartbeat.foldl (cleanupStep (now - 300)) s

/-- The number of task entries across the four task lists, the quantity of
the conservation property. -/
def totalTaskCount (s : QueueState) : Nat :=
  s.task_queue.length + s.processing_queue.length +
    s.completed_queue.length + s.failed_queue.length

/-- A sequence of `get_next_task` calls with no store failure, one call
per worker id in the list, collecting the tasks handed out in call
order. -/
def runGets (now : Nat) : List String → QueueState →
    List ScrapingTask × QueueState
  | [], s => ([], s)
  | w :: ws, s =>
    let r := get_next_task false w now s
    let rest := runGets now ws r.2
    (r.1.toList ++ rest.1, rest.2)

/-- A single concrete pending task, as created first by
`initialize_task_distribution(500)`. -/
def sampleTask : ScrapingTask :=
  { task_id := "task_000000",
    url := "https://stackoverflow.com/questions?page=1",
    start_page := 1, end_page := 50, worker_id := "", created_at := "T",
    status := "pending", retries := 0, questions_scraped := 0 }

/-- `sampleTask` after being claimed by worker `w1`: the payload that
`get_next_task` leaves in the processing list. -/
def sampleRun0 : ScrapingTask :=
  { sampleTask with worker_id := "w1", status := "running" }

/-- `sampleTask` after one failed attempt is re-enqueued: retry counter 1,
status pending, no owner. -/
def sampleReq1 : ScrapingTask := { sampleTask with retries := 1 }

/-- The re-enqueued task claimed again by `w1`. -/
def sampleRun1 : ScrapingTask :=
  { sampleTask with retries := 1, worker_id := "w1", status := "running" }

/-- The task claimed a third time by `w1`, after two failures. -/
def sampleRun2 : ScrapingTask :=
  { sampleTask with retries := 2, worker_id := "w1", status := "running" }

example : (initTasks 100 "T").length = 10 := by decide
example : (initTasks 100 "T").map ScrapingTask.task_id =
    ["task_000000", "task_000001", "task_000002", "task_000003",
     "task_000004", "task_000005", "task_000006", "task_000007",
     "task_000008", "task_000009"] := by decide

/-- The `HealthCheckServer` state relevant to the shutdown and health
routes: the `is_healthy` flag set in `__init__` and flipped by the
shutdown route. -/
structure HealthCheckServer where
  is_healthy : Bool
deriving DecidableEq, Repr

/-- The JSON body and HTTP code produced by the `/health` route: overall
status, per-check strings, and the response code (200 when all three
checks pass, 503 otherwise).  Database and Redis connectivity are the
results of the two externally-probing check helpers, passed in as
booleans. -/
structure HealthResponse where
  code : Nat
  status : String
  database : String
  redis : String
  application : String
deriving DecidableEq, Repr

/-- The `/health` route of monitoring.py: overall health is the
conjunction of database connectivity, Redis connectivity and the server's
`is_healthy` flag; each check reports healthy or unhealthy; the code is
200 exactly when all pass. -/
def health_check (db_healthy redis_healthy : Bool)
    (srv : HealthCheckServer) : HealthResponse :=
  let overall := db_healthy && redis_healthy && srv.is_healthy
  { code := if overall then 200 else 503,
    status := if overall then "healthy" else "unhealthy",
    database := if db_healthy then "healthy" else "unhealthy",
    redis := if redis_healthy then "healthy" else "unhealthy",
    application := if srv.is_healthy then "healthy" else "unhealthy" }

/-- An HTTP response of the `/shutdown` route: status code and the
distinguishing body field. -/
structure ShutdownResponse where
  code : Nat
  body : String
deriving DecidableEq, Repr

/-- The `POST /shutdown` route of monitoring.py: reads the Authorization
header (absent headers read as `none`); any value other than
`Bearer <shutdown_key>` yields 401 and leaves the server untouched;
a match flips `is_healthy` to false and returns 200 with status
`shutting_down`. -/
def shutdown_route (auth_header : Option String) (shutdown_key : String)
    (srv : HealthCheckServer) : ShutdownResponse × HealthCheckServer :=
  if auth_header ≠ some ("Bearer " ++ shutdown_key) then
    ({ code := 401, body := "Unauthorized" }, srv)
  else
    ({ code := 200, body := "shutting_down" },
     { srv with is_healthy := false })

/-- C1: task conservation fails on the code.  Starting from one pending
task, `get_next_task` keeps the total entry count at 1, but
`complete_task` LREMs the already-updated payload (status completed),
which matches nothing in processing, while still LPUSHing to completed:
the total entry count grows from 1 to 2. -/
theorem C1_conservation_fails_eval :
    totalTaskCount { emptyState with task_queue := [sampleTask] } = 1 ∧
    (get_next_task false "w1" 0
      { emptyState with task_queue := [sampleTask] }).1 = some sampleRun0 ∧
    totalTaskCount (get_next_task false "w1" 0
      { emptyState with task_queue := [sampleTask] }).2 = 1 ∧
    totalTaskCount (complete_task sampleRun0 5
      (get_next_task false "w1" 0
        { emptyState with task_queue := [sampleTask] }).2) = 2 := by
  decide

/-- C2: completion postcondition, evaluated on a freshly initialized queue
(budget 500, ten sections, one task each).  After claiming `task_000000`
and completing it with 37 items: the completed counter reads 1, the
question counter 37, the completed payload is appended, and the task is
absent from pending — but the running entry is NOT removed from
processing, because `complete_task` LREMs the completed serialization,
which matches no processing entry. -/
theorem C2_completion_postcondition_eval :
    (get_next_task false "w1" 0
      (initialize_task_distribution 500 "T" emptyState)).1 = some sampleRun0 ∧
    (let s2 := complete_task sampleRun0 37
      (get_next_task false "w1" 0
        (initialize_task_distribution 500 "T" emptyState)).2
     s2.stats_completed_tasks = 1 ∧
     s2.stats_total_questions = 37 ∧
     s2.task_queue.all (fun x => x.task_id ≠ "task_000000") = true ∧
     s2.completed_queue =
       [{ sampleRun0 with status := "completed", questions_scraped := 37 }] ∧
     sampleRun0 ∈ s2.processing_queue) := by
  decide

/-- C3: retry bound, evaluated with the default `max_retries = 3`.  A task
failed three times lands in the failed list with retry counter 3 and never
re-enters pending; a task failed twice then completed lands in completed
with retry counter 2 = max_retries - 1.  But in both branches `fail_task`
LREMs the mutated payload (retry counter bumped, status changed), which
matches no processing entry, so the three stale running payloads stay in
processing instead of being removed. -/
theorem C3_retry_bound_eval :
    (let s0 : QueueState := { emptyState with task_queue := [sampleTask] }
     let s1 := (get_next_task false "w1" 0 s0).2
     let s2 := fail_task sampleRun0 max_retries s1
     let s3 := (get_next_task false "w1" 0 s2).2
     let s4 := fail_task sampleRun1 max_retries s3
     let s5 := (get_next_task false "w1" 0 s4).2
     let s6 := fail_task sampleRun2 max_retries s5
     let s6b := complete_task sampleRun2 7 s5
     (get_next_task false "w1" 0 s0).1 = some sampleRun0 ∧
     (get_next_task false "w1" 0 s2).1 = some sampleRun1 ∧
     (get_next_task false "w1" 0 s4).1 = some sampleRun2 ∧
     s2.task_queue = [sampleReq1] ∧
     s6.failed_queue =
       [{ sampleTask with retries := 3, worker_id := "w1",
                          status := "failed" }] ∧
     s6.task_queue = [] ∧
     s6.processing_queue.length = 3 ∧
     s6b.completed_queue =
       [{ sampleTask with retries := 2, worker_id := "w1",
                          status := "completed", questions_scraped := 7 }] ∧
     max_retries - 1 = 2 ∧
     s6b.task_queue = [] ∧
     sampleRun2 ∈ s6b.processing_queue) := by
  decide

/-- Adding a key to a set it already belongs to is a no-op. -/
theorem saddStr_eq_of_mem (k : String) (l : List String) (h : k ∈ l) :
    saddStr k l = l := by
  simp [saddStr, h]

/-- A key belongs to the set right after it has been added. -/
theorem saddStr_self_mem (k : String) (l : List String) : k ∈ saddStr k l := by
  unfold saddStr
  split
  · assumption
  · exact List.mem_cons_self k l

/-- C5 counterexample: calling `add_question_id` twice with the same key
leaves the dedup set at size 1 after the second call, but the
`unique_questions` counter reads 2, not 1 — the HINCRBY is unconditional,
so the counter is incremented on the duplicate call as well. -/
theorem C5_dedup_counter_counterexample :
    (add_question_id "q1" (add_question_id "q1" emptyState)).question_ids.length
      = (add_question_id "q1" emptyState).question_ids.length ∧
    (add_question_id "q1"
      (add_question_id "q1" emptyState)).stats_unique_questions = 2 ∧
    ¬ (add_question_id "q1"
      (add_question_id "q1" emptyState)).stats_unique_questions = 1 := by
  decide

/-- C5 amended: for every state and key, the second `add_question_id` call
leaves the dedup set size unchanged, but the `unique_questions` counter is
incremented by both calls, reading two more than before. -/
theorem C5_dedup_idempotence_amended (s : QueueState) (k : String) :
    (add_question_id k (add_question_id k s)).question_ids.length
      = (add_question_id k s).question_ids.length ∧
    (add_question_id k (add_question_id k s)).stats_unique_questions
      = s.stats_unique_questions + 2 := by
  constructor
  · simp [add_question_id,
      saddStr_eq_of_mem k _ (saddStr_self_mem k s.question_ids)]
  · simp [add_question_id]

/-- C7 counterexample: a connectivity error raised inside `get_next_task`
is not surfaced.  On a state with a non-empty pending list, the body
raises `connError`, but `get_next_task` catches every exception and
returns the normal no-task value with the state untouched —
indistinguishable from the empty-pending timeout return. -/
theorem C7_conn_error_not_surfaced_counterexample :
    get_next_task_body true "w1" 0 { emptyState with task_queue := [sampleTask] }
      = Except.error RedisErr.connError ∧
    get_next_task true "w1" 0 { emptyState with task_queue := [sampleTask] }
      = (none, { emptyState with task_queue := [sampleTask] }) :=
  ⟨rfl, rfl⟩

/-- C7 amended: `get_next_task` converts a coordination-store connectivity
error into the normal `none` return (state unchanged, no internal retry),
exactly as it returns `none` on an empty-pending timeout. -/
theorem C7_error_handling_amended (w : String) (now : Nat) (s s2 : QueueState) :
    get_next_task true w now s = (none, s) ∧
    get_next_task false w now { s2 with task_queue := [] }
      = (none, { s2 with task_queue := [] }) := by
  constructor
  · simp [get_next_task, get_next_task_body]
  · simp [get_next_task, get_next_task_body]

/-- C8 counterexample: `initialize_task_distribution(100)` creates 10
tasks, not 4 — the code divides the budget over its ten hard-coded section
URLs (100 // 10 = 10 pages each, a single capped page range per section),
so the claimed two-prefix, four-task outcome does not match the code. -/
theorem C8_init_count_counterexample :
    so_sections.length = 10 ∧
    (initialize_task_distribution 100 "T" emptyState).task_queue.length = 10 ∧
    ¬ (initialize_task_distribution 100 "T" emptyState).task_queue.length = 4 := by
  decide

/-- C8 amended: `initialize_task_distribution(100)` over the ten
hard-coded URL prefixes produces exactly 10 tasks, all in the pending list
with status pending, and the statistics report total_tasks = 10 and
completed_tasks = 0; in general initialization puts every created task,
status pending, into the pending list, sets total_tasks to the number of
created tasks and resets completed_tasks to 0. -/
theorem C8_init_task_count_amended (n : Nat) (now : String) (s : QueueState) :
    ((initialize_task_distribution 100 "T" emptyState).task_queue.length = 10 ∧
     (initialize_task_distribution 100 "T" emptyState).stats_total_tasks = 10 ∧
     (initialize_task_distribution 100 "T" emptyState).stats_completed_tasks = 0 ∧
     ((initialize_task_distribution 100 "T" emptyState).task_queue.all
       (fun t => t.status = "pending")) = true) ∧
    (initialize_task_distribution n now s).task_queue.length
      = (initTasks n now).length ∧
    (initialize_task_distribution n now s).stats_total_tasks
      = (initTasks n now).length ∧
    (initialize_task_distribution n now s).stats_completed_tasks = 0 ∧
    ∀ t ∈ (initialize_task_distribution n now s).task_queue,
      t.status = "pending" := by
  refine ⟨by decide, by simp [initialize_task_distribution], rfl, rfl, ?_⟩
  intro t ht
  have ht2 : t ∈ initTasks n now := by
    simpa [initialize_task_distribution] using ht
  simp only [initTasks, List.mem_map] at ht2
  obtain ⟨p, hp, hf⟩ := ht2
  rw [← hf]

/-- C10: the implicit initialization frame.  `initialize_task_distribution`
replaces only the pending list and the statistics fields; the processing,
completed and failed lists, both dedup sets, the heartbeat hash and the
active-worker set of the prior state all survive unchanged. -/
theorem C10_initialize_frame (n : Nat) (now : String) (s : QueueState) :
    (initialize_task_distribution n now s).processing_queue
      = s.processing_queue ∧
    (initialize_task_distribution n now s).completed_queue
      = s.completed_queue ∧
    (initialize_task_distribution n now s).failed_queue = s.failed_queue ∧
    (initialize_task_distribution n now s).url_set = s.url_set ∧
    (initialize_task_distribution n now s).question_ids = s.question_ids ∧
    (initialize_task_distribution n now s).worker_heartbeat
      = s.worker_heartbeat ∧
    (initialize_task_distribution n now s).active_workers
      = s.active_workers ∧
    (initialize_task_distribution n now s).task_queue
      = (initTasks n now).reverse ∧
    (initialize_task_distribution n now s).stats_total_tasks
      = (initTasks n now).length ∧
    (initialize_task_distribution n now s).stats_completed_tasks = 0 ∧
    (initialize_task_distribution n now s).stats_failed_tasks = 0 ∧
    (initialize_task_distribution n now s).stats_total_questions = 0 ∧
    (initialize_task_distribution n now s).stats_unique_questions = 0 ∧
    (initialize_task_distribution n now s).stats_start_time = now :=
  ⟨rfl, rfl, rfl, rfl, rfl, rfl, rfl, rfl, rfl, rfl, rfl, rfl, rfl, rfl⟩

/-- C9: shutdown authorization.  A request whose Authorization header is
not `Bearer <shutdown key>` gets 401 and the server — hence the health
route — is untouched; a matching request gets 200 with body
`shutting_down`, the `is_healthy` flag drops to false, and `/health` then
reports the application check unhealthy with code 503 regardless of the
database and Redis checks. -/
theorem C9_shutdown_authorization (hdr : Option String) (key : String)
    (srv : HealthCheckServer) (db redisOk : Bool) :
    (hdr ≠ some ("Bearer " ++ key) →
      shutdown_route hdr key srv = ({ code := 401, body := "Unauthorized" }, srv)) ∧
    (hdr = some ("Bearer " ++ key) →
      (shutdown_route hdr key srv).1
          = { code := 200, body := "shutting_down" } ∧
      ((shutdown_route hdr key srv).2).is_healthy = false ∧
      (health_check db redisOk (shutdown_route hdr key srv).2).application
          = "unhealthy" ∧
      (health_check db redisOk (shutdown_route hdr key srv).2).code = 503) := by
  constructor
  · intro h
    simp [shutdown_route, h]
  · intro h
    simp [shutdown_route, h, health_check]

/-- C9 witness: the theorem applied at a wrong header (absent) and at the
matching header, with concrete key and server state. -/
theorem C9_shutdown_authorization_witness :
    shutdown_route none "k0" { is_healthy := true }
        = ({ code := 401, body := "Unauthorized" }, { is_healthy := true }) ∧
    (health_check true true
        (shutdown_route (some "Bearer k0") "k0" { is_healthy := true }).2).code
      = 503 :=
  ⟨(C9_shutdown_authorization none "k0" { is_healthy := true } true true).1
      (by decide),
   ((C9_shutdown_authorization (some "Bearer k0") "k0" { is_healthy := true }
      true true).2 rfl).2.2.2⟩

/-- `get_next_task` (without store failure) always leaves the pending list
without its last element: BRPOPLPUSH pops the tail, and on the timeout
branch the list was already empty. -/
theorem get_next_task_task_queue (w : String) (now : Nat) (s : QueueState) :
    (get_next_task false w now s).2.task_queue = s.task_queue.dropLast := by
  unfold get_next_task get_next_task_body
  cases h : s.task_queue.getLast? with
  | none =>
    have : s.task_queue = [] := List.getLast?_eq_none_iff.mp h
    simp [this]
  | some td => simp [register_worker_heartbeat]

/-- On a non-empty pending list, `get_next_task` returns the tail element
with the claiming worker recorded and status set to running. -/
theorem get_next_task_returns_last (w : String) (now : Nat) (s : QueueState)
    (td : ScrapingTask) (h : s.task_queue.getLast? = some td) :
    (get_next_task false w now s).1
      = some { td with worker_id := w, status := "running" } := by
  unfold get_next_task get_next_task_body
  simp [h]

/-- Draining the pending list with one `get_next_task` call per entry
hands the tasks out in FIFO order: the ids collected equal the reverse of
the stored list (LPUSH prepends, BRPOPLPUSH pops the tail). -/
theorem runGets_ids (now : Nat) : ∀ (ws : List String) (s : QueueState),
    ws.length = s.task_queue.length →
    (runGets now ws s).1.map ScrapingTask.task_id
      = s.task_queue.reverse.map ScrapingTask.task_id := by
  intro ws
  induction ws with
  | nil =>
    intro s h
    have hq : s.task_queue = [] := by
      cases hq : s.task_queue with
      | nil => rfl
      | cons a l => rw [hq] at h; simp at h
    simp [runGets, hq]
  | cons w ws ih =>
    intro s h
    have hne : s.task_queue ≠ [] := by
      intro hq
      rw [hq] at h
      simp at h
    cases htd : s.task_queue.getLast? with
    | none => exact absurd (List.getLast?_eq_none_iff.mp htd) hne
    | some td =>
      have hfst := get_next_task_returns_last w now s td htd
      have hsnd := get_next_task_task_queue w now s
      have h1 : ws.length + 1 = s.task_queue.length := by simpa using h
      have hlen2 : ws.length = (get_next_task false w now s).2.task_queue.length := by
        rw [hsnd, List.length_dropLast]
        omega
      have hrev : s.task_queue.reverse
          = td :: s.task_queue.dropLast.reverse := by
        conv_lhs => rw [← List.dropLast_append_getLast? td htd]
        simp
      rw [runGets]
      simp only [hfst, Option.toList_some, List.map_append, List.map_cons,
        List.map_nil, List.singleton_append]
      rw [ih _ hlen2, hsnd, hrev]
      simp

/-- C6: a retried task goes to the tail of the FIFO.  When `fail_task`
re-enqueues a task with retry budget left, draining the queue with one
`get_next_task` call per entry returns every task that was already
pending, in FIFO order, before finally returning the retried task. -/
theorem C6_retried_task_dispatched_last (tk : ScrapingTask) (maxr : Nat)
    (s0 : QueueState) (ws : List String) (now : Nat)
    (hret : tk.retries + 1 < maxr)
    (hlen : ws.length = s0.task_queue.length + 1) :
    (runGets now ws (fail_task tk maxr s0)).1.map ScrapingTask.task_id
      = s0.task_queue.reverse.map ScrapingTask.task_id ++ [tk.task_id] := by
  have hq : (fail_task tk maxr s0).task_queue
      = { tk with retries := tk.retries + 1, status := "pending",
                  worker_id := "" } :: s0.task_queue := by
    simp [fail_task, hret]
  rw [runGets_ids now ws _ (by rw [hq]; simpa using hlen), hq]
  simp

/-- C6 witness: with pending holding one fresh task and `sampleTask`
re-enqueued by `fail_task` under the default retry limit, two
`get_next_task` calls return the fresh task first and the retried task
last. -/
theorem C6_retried_task_dispatched_last_witness :
    sampleTask.retries + 1 < max_retries ∧
    (["w1", "w2"] : List String).length
      = ({ emptyState with
            task_queue := [{ sampleTask with task_id := "task_000001" }] }
          : QueueState).task_queue.length + 1 ∧
    (runGets 0 ["w1", "w2"] (fail_task sampleTask max_retries
        { emptyState with
          task_queue := [{ sampleTask with task_id := "task_000001" }] })).1.map
        ScrapingTask.task_id
      = ["task_000001", "task_000000"] :=
  ⟨by decide, by decide,
   (C6_retried_task_dispatched_last sampleTask max_retries
      { emptyState with
        task_queue := [{ sampleTask with task_id := "task_000001" }] }
      ["w1", "w2"] 0 (by decide) (by decide)).trans (by decide)⟩

/-- The reassignment loop skips every entry not owned by the dead
worker. -/
theorem foldl_reassignStep_skip (dead : String) :
    ∀ (l : List ScrapingTask) (st : QueueState),
    (∀ t ∈ l, t.worker_id ≠ dead) →
    l.foldl (reassignStep dead) st = st := by
  intro l
  induction l with
  | nil => intro st _; rfl
  | cons a l ih =>
    intro st h
    have ha : a.worker_id ≠ dead := h a (List.mem_cons_self a l)
    rw [List.foldl_cons]
    rw [show reassignStep dead st a = st by simp [reassignStep, ha]]
    exact ih st (fun t ht => h t (List.mem_cons_of_mem a ht))

/-- LREM of a payload occurring once removes exactly that occurrence. -/
theorem lrem1_append_not_mem (tk : ScrapingTask) :
    ∀ (p1 p2 : List ScrapingTask), tk ∉ p1 →
    lrem1 tk (p1 ++ tk :: p2) = p1 ++ p2 := by
  intro p1
  induction p1 with
  | nil => intro p2 _; simp [lrem1]
  | cons a p1 ih =>
    intro p2 h
    have ha : a ≠ tk := fun e => h (e ▸ List.mem_cons_self a p1)
    simp only [List.cons_append, lrem1, if_neg ha, List.append_eq]
    rw [ih p2 (fun hm => h (List.mem_cons_of_mem a hm))]

/-- `_reassign_worker_tasks` on a worker owning exactly one processing
entry: that entry is removed from processing and its reset payload is
LPUSHed onto the pending list; nothing else changes. -/
theorem reassign_worker_tasks_single (w : String) (tk : ScrapingTask)
    (p1 p2 : List ScrapingTask) (s : QueueState)
    (hw : tk.worker_id = w)
    (h1 : ∀ t ∈ p1, t.worker_id ≠ w) (h2 : ∀ t ∈ p2, t.worker_id ≠ w)
    (hs : s.processing_queue = p1 ++ tk :: p2) :
    reassign_worker_tasks w s =
      { s with
        processing_queue := p1 ++ p2,
        task_queue :=
          { tk with worker_id := "", status := "pending" }
            :: s.task_queue } := by
  have hnot : tk ∉ p1 := fun hm => h1 tk hm hw
  unfold reassign_worker_tasks
  rw [hs, List.foldl_append, foldl_reassignStep_skip w p1 s h1,
    List.foldl_cons]
  rw [show reassignStep w s tk =
      { s with
        processing_queue := p1 ++ p2,
        task_queue :=
          { tk with worker_id := "", status := "pending" }
            :: s.task_queue } by
    simp [reassignStep, hw, hs, lrem1_append_not_mem tk p1 p2 hnot]]
  exact foldl_reassignStep_skip w p2 _ h2

/-- C4: dead-worker reassignment.  For a worker whose recorded heartbeat
is older than the 5-minute window and which owns exactly one processing
entry, `cleanup_dead_workers` moves that entry back to pending with the
owner cleared and status reset, and removes the worker from the heartbeat
hash and from the active-worker set. -/
theorem C4_dead_worker_reassignment (w : String) (hb now : Nat)
    (tk : ScrapingTask) (p1 p2 : List ScrapingTask) (s : QueueState)
    (hhb : s.worker_heartbeat = [(w, hb)])
    (hdead : hb < now - 300)
    (hw : tk.worker_id = w)
    (h1 : ∀ t ∈ p1, t.worker_id ≠ w) (h2 : ∀ t ∈ p2, t.worker_id ≠ w)
    (hs : s.processing_queue = p1 ++ tk :: p2) :
    (cleanup_dead_workers now s).processing_queue = p1 ++ p2 ∧
    (cleanup_dead_workers now s).task_queue
      = { tk with worker_id := "", status := "pending" } :: s.task_queue ∧
    (cleanup_dead_workers now s).worker_heartbeat = [] ∧
    w ∉ (cleanup_dead_workers now s).active_workers := by
  unfold cleanup_dead_workers
  rw [hhb]
  simp only [List.foldl_cons, List.foldl_nil]
  unfold cleanupStep
  simp only [if_pos hdead]
  rw [reassign_worker_tasks_single w tk p1 p2 s hw h1 h2 hs]
  refine ⟨rfl, rfl, ?_, ?_⟩
  · simp [hhb, hdelHB]
  · simp

/-- C4 witness: worker `w1` with heartbeat at time 0, checked at time
1000, owning the single processing entry `sampleRun0`: the entry comes
back to pending ownerless and pending-status, processing empties, and
`w1` leaves the heartbeat hash and active set. -/
theorem C4_dead_worker_reassignment_witness :
    (cleanup_dead_workers 1000
      { emptyState with processing_queue := [sampleRun0],
                        worker_heartbeat := [("w1", 0)],
                        active_workers := ["w1"] }).processing_queue = [] ∧
    (cleanup_dead_workers 1000
      { emptyState with processing_queue := [sampleRun0],
                        worker_heartbeat := [("w1", 0)],
                        active_workers := ["w1"] }).task_queue
      = [{ sampleRun0 with worker_id := "", status := "pending" }] ∧
    (cleanup_dead_workers 1000
      { emptyState with processing_queue := [sampleRun0],
                        worker_heartbeat := [("w1", 0)],
                        active_workers := ["w1"] }).worker_heartbeat = [] ∧
    "w1" ∉ (cleanup_dead_workers 1000
      { emptyState with processing_queue := [sampleRun0],
                        worker_heartbeat := [("w1", 0)],
                        active_workers := ["w1"] }).active_workers := by
  have h := C4_dead_worker_reassignment "w1" 0 1000 sampleRun0 [] []
    { emptyState with processing_queue := [sampleRun0],
                      worker_heartbeat := [("w1", 0)],
                      active_workers := ["w1"] }
    rfl (by decide) rfl (by simp) (by simp) rfl
  exact ⟨h.1, h.2.1, h.2.2.1, h.2.2.2⟩
